import Mathlib

/-!
Verification development for the Forest Fire FWI predictor
(`src/Forest_Fire.py`), a single-page Streamlit app that loads a
pre-fitted scaler and ridge-regression model, builds a 9-feature vector
from form inputs (or an uploaded CSV), and renders the predicted Fire
Weather Index.

The app is shallow-embedded below.  The scaler and the model are opaque
artifacts deserialized from disk, so they are parameters of every
operation: a `Scaler` maps one raw feature row to a scaled row and a
`Model` maps one scaled row to one prediction, either of which may raise
a Python exception.  Exceptions are modelled by `PyErr`, which
distinguishes `ValueError` (the only type the single-record handler
catches, line 100 of the source) from every other exception type
(the batch handler catches all of them, line 121).  Numeric values are
modelled as rationals.
-/

namespace ForestFire

/-- A Python exception: either a `ValueError` or an exception of any
other type, each carrying its message text. -/
inductive PyErr where
  | valueError : String → PyErr
  | otherError : String → PyErr
deriving DecidableEq, Repr

/-- The message text of an exception (what `f"{e}"` interpolates). -/
def PyErr.msg : PyErr → String
  | .valueError m => m
  | .otherError m => m

/-- The pre-fitted scaler artifact: `scaler.transform` applied to one raw
feature row.  Opaque; may raise. -/
abbrev Scaler : Type := List ℚ → Except PyErr (List ℚ)

/-- The pre-fitted regression model: `model.predict` applied to one
scaled feature row, yielding one FWI value.  Opaque; may raise. -/
abbrev Model : Type := List ℚ → Except PyErr ℚ

/-- Source line 32: `region_map = {"Bejaia": 1, "Sidi-Bel Abbes": 2}`,
as an association list in insertion order. -/
def region_map : List (String × ℕ) := [("Bejaia", 1), ("Sidi-Bel Abbes", 2)]

/-- Source line 33: the selectbox offers exactly the keys of
`region_map`, in order. -/
def region_options : List String := region_map.map Prod.fst

/-- Source line 34: `region = region_map[region_name]` (dictionary
lookup by name). -/
def regionCode (name : String) : Option ℕ := region_map.lookup name

/-- Source line 57:
`input_data = np.array([[region, temp, RH, Ws, Rain, FFMC, DMC, DC, ISI]])`
— the single feature row, in exactly this order. -/
def input_data (region temp RH Ws Rain FFMC DMC DC ISI : ℚ) : List ℚ :=
  [region, temp, RH, Ws, Rain, FFMC, DMC, DC, ISI]

/-- Floor of a rational, computed on its reduced numerator/denominator
(kept kernel-reducible on purpose). -/
def ratFloor (q : ℚ) : ℤ := Int.fdiv q.num q.den

/-- Round to the nearest integer, ties to even — the rounding used by
Python's fixed-point formatting, here applied to the exact value. -/
def roundHalfEven (x : ℚ) : ℤ :=
  let n := ratFloor x
  let r := x - (n : ℚ)
  if r < 1/2 then n
  else if 1/2 < r then n + 1
  else if n % 2 = 0 then n else n + 1

/-- Python's `f"{x:.2f}"`: the value rounded half-to-even at two decimal
places and printed with exactly two fractional digits. -/
def fmt2 (x : ℚ) : String :=
  let n := roundHalfEven (x * 100)
  let sign := if n < 0 then "-" else ""
  let m := n.natAbs
  let frac := m % 100
  sign ++ toString (m / 100) ++ "." ++ (if frac < 10 then "0" else "") ++ toString frac

/-- Python's `str()` of a raw float input as interpolated by `f"{temp}"`:
an integral float prints with a trailing `.0`.  (Non-integral values are
rendered from the rational; their exact decimal spelling is not relied
on by any theorem below.) -/
def pyStr (x : ℚ) : String :=
  if x.den = 1 then toString x.num ++ ".0" else toString x

/-- Source line 102: the `st.info` hint shown beneath an input-mismatch
error. -/
def hint_text : String :=
  "Make sure the feature order and count match your training setup."

/-- The report template's line separator: each line of the f-string at
lines 84-97 starts on a new line indented by twelve spaces. -/
def rsep : String := "\n            "

/-- Source lines 84-97: the downloadable plain-text report, with every
raw input field and the two-decimal prediction interpolated into the
fixed template. -/
def report_text (region_name : String) (temp RH Ws Rain FFMC DMC DC ISI pred : ℚ) :
    String :=
  rsep ++ "Forest Weather Index Prediction Report" ++
  rsep ++ "--------------------------------------" ++
  rsep ++ "Region: " ++ region_name ++
  rsep ++ "Temperature: " ++ pyStr temp ++ " °C" ++
  rsep ++ "Humidity: " ++ pyStr RH ++ " %" ++
  rsep ++ "Wind Speed: " ++ pyStr Ws ++ " km/h" ++
  rsep ++ "Rain: " ++ pyStr Rain ++ " mm" ++
  rsep ++ "FFMC: " ++ pyStr FFMC ++
  rsep ++ "DMC: " ++ pyStr DMC ++
  rsep ++ "DC: " ++ pyStr DC ++
  rsep ++ "ISI: " ++ pyStr ISI ++
  rsep ++ "Predicted FWI: " ++ fmt2 pred ++ rsep

/-- Outcome of one press of the Predict button (source lines 56-102):
success renders the rounded value, the gauge needle position and the
report; a `ValueError` is rendered as the `st.error` message plus the
`st.info` hint; any other exception escapes the handler. -/
inductive SingleOutcome where
  | success (displayed : String) (gaugeValue : ℚ) (report : String)
  | inputMismatch (errorMsg : String) (hint : String)
  | uncaught (e : PyErr)
deriving DecidableEq, Repr

/-- Source lines 59-102: the body of the Predict handler from
`scaler.transform` onwards, applied to an already-built feature row `v`.
`ValueError` from either library call is caught (lines 100-102); any
other exception propagates. -/
def run_inference (scaler : Scaler) (model : Model) (region_name : String)
    (temp RH Ws Rain FFMC DMC DC ISI : ℚ) (v : List ℚ) : SingleOutcome :=
  match scaler v with
  | .error (.valueError m) => .inputMismatch ("Input mismatch: " ++ m) hint_text
  | .error e => .uncaught e
  | .ok scaled =>
    match model scaled with
    | .error (.valueError m) => .inputMismatch ("Input mismatch: " ++ m) hint_text
    | .error e => .uncaught e
    | .ok p =>
        .success ("Estimated FWI: **" ++ fmt2 p ++ "**") p
          (report_text region_name temp RH Ws Rain FFMC DMC DC ISI p)

/-- Source lines 56-102: the whole Predict handler — resolve the region
code, build `input_data`, then run inference.  (The selectbox guarantees
the region name is a key of `region_map`, so the lookup's default is
never taken.) -/
def singlePredict (scaler : Scaler) (model : Model) (region_name : String)
    (temp RH Ws Rain FFMC DMC DC ISI : ℚ) : SingleOutcome :=
  run_inference scaler model region_name temp RH Ws Rain FFMC DMC DC ISI
    (input_data (((regionCode region_name).getD 0 : ℕ) : ℚ) temp RH Ws Rain FFMC DMC DC ISI)

/-- One step of the gauge (source lines 74-76): a closed range and its
fill color. -/
structure GaugeStep where
  lo : ℚ
  hi : ℚ
  color : String
deriving DecidableEq, Repr

/-- Source lines 73-77: the three fixed gauge steps, in draw order. -/
def gauge_steps : List GaugeStep :=
  [⟨0, 30, "lightgreen"⟩, ⟨30, 70, "yellow"⟩, ⟨70, 100, "red"⟩]

/-- Source line 71: the gauge axis range, a design constant. -/
def gauge_axis : ℚ × ℚ := (0, 100)

/-- Whether a value lies in a step's (closed) range. -/
def GaugeStep.holds (s : GaugeStep) (v : ℚ) : Bool :=
  decide (s.lo ≤ v) && decide (v ≤ s.hi)

/-- The band color shown at value `v`: steps are drawn in list order,
later steps atop earlier ones, so at a shared boundary the last
containing step's color is the one displayed. -/
def bandColor (v : ℚ) : Option String :=
  ((gauge_steps.filter (fun s => s.holds v)).getLast?).map GaugeStep.color

/-- A parsed uploaded table (`pd.read_csv` result): a header row and
data rows. -/
structure DataFrame where
  header : List String
  rows : List (List ℚ)
deriving DecidableEq, Repr

/-- `df.head()`: the first five rows, previewed at source line 110. -/
def DataFrame.head (df : DataFrame) : DataFrame := ⟨df.header, df.rows.take 5⟩

/-- Source line 115: `df['Predicted FWI'] = batch_predictions` — pandas
key assignment.  If the column name already exists its values are
REPLACED in place; otherwise a new column is appended on the right. -/
def setCol (df : DataFrame) (name : String) (vals : List ℚ) : DataFrame :=
  if name ∈ df.header then
    { header := df.header,
      rows := df.rows.zipWith (fun r v => r.set (df.header.indexOf name) v) vals }
  else
    { header := df.header ++ [name],
      rows := df.rows.zipWith (fun r v => r ++ [v]) vals }

/-- `df.to_csv(index=False)` (source line 119): header line, then one
line per row, comma-separated. -/
def toCsv (df : DataFrame) : String :=
  String.intercalate "," df.header ++ "\n" ++
    String.join (df.rows.map (fun r => String.intercalate "," (r.map pyStr) ++ "\n"))

/-- Row-wise application of a fallible library call to a table, stopping
at the first exception — how `scaler.transform` / `model.predict` act on
a whole table (one result per row on success). -/
def mapExcept {α β : Type} (f : α → Except PyErr β) : List α → Except PyErr (List β)
  | [] => .ok []
  | a :: as =>
    match f a with
    | .error e => .error e
    | .ok b =>
      match mapExcept f as with
      | .error e => .error e
      | .ok bs => .ok (b :: bs)

/-- Outcome of the batch section (source lines 105-122): on success the
preview (`df.head()`), the augmented table and its CSV download; on any
exception only the `st.error` message. -/
inductive BatchOutcome where
  | success (preview : DataFrame) (result : DataFrame) (csv : String)
  | failure (errorMsg : String)
deriving DecidableEq, Repr

/-- Source lines 105-122: the batch handler.  `parsed` is the result of
`pd.read_csv` on the upload (which may itself raise).  Every exception
from parsing, scaling or predicting is caught by the single
`except Exception` and rendered as one error message; nothing else is
produced in that case. -/
def batchRun (scaler : Scaler) (model : Model)
    (parsed : Except PyErr DataFrame) : BatchOutcome :=
  match parsed with
  | .error e => .failure ("Error processing file: " ++ e.msg)
  | .ok df =>
    match mapExcept scaler df.rows with
    | .error e => .failure ("Error processing file: " ++ e.msg)
    | .ok scaled =>
      match mapExcept model scaled with
      | .error e => .failure ("Error processing file: " ++ e.msg)
      | .ok preds =>
        let df2 := setCol df "Predicted FWI" preds
        .success df.head df2 (toCsv df2)

/-- Source lines 125-128: the simulated historical trend draws ten fresh
values from the process's random stream on every script run. -/
def history_points (rand : ℕ → ℚ) : List ℚ := (List.range 10).map rand

/-- Everything one full script run renders: the single-prediction
section (if the button was pressed), the batch section (if a file was
uploaded), and the random history chart. -/
structure RenderOutput where
  single : Option SingleOutcome
  batch : Option BatchOutcome
  history : List ℚ
deriving DecidableEq

/-- One top-to-bottom run of the Streamlit script for a given
interaction: region choice `i` (the selectbox admits only
`region_options`), the eight numeric fields, whether Predict was
pressed, the uploaded file (already parsed or failed), and the run's
random stream.  An exception that escapes the Predict handler aborts
the run before the later sections render (`Except.error`); otherwise
the run completes. -/
def scriptRun (scaler : Scaler) (model : Model) (i : Fin region_options.length)
    (temp RH Ws Rain FFMC DMC DC ISI : ℚ) (pressed : Bool)
    (upload : Option (Except PyErr DataFrame)) (rand : ℕ → ℚ) :
    Except PyErr RenderOutput :=
  let region_name := region_options.get i
  let single : Option SingleOutcome :=
    if pressed then
      some (singlePredict scaler model region_name temp RH Ws Rain FFMC DMC DC ISI)
    else none
  match single with
  | some (.uncaught e) => .error e
  | s => .ok ⟨s, upload.map (batchRun scaler model), history_points rand⟩

/-- `pat` occurs as a contiguous substring of `s`. -/
def occursIn (pat s : String) : Prop := List.IsInfix pat.data s.data

/-- A scaler artifact fitted on 8 features: it rejects any row of a
different width with the `ValueError` sklearn raises on a shape
mismatch. -/
def scaler8 : Scaler := fun v =>
  if v.length = 8 then .ok v
  else .error (.valueError "X has 9 features, but StandardScaler is expecting 8 features as input.")

/-- A model artifact that predicts 0 for every row. -/
def model0 : Model := fun _ => .ok 0

/-- The first selectbox option (Bejaia). -/
def regionIdx0 : Fin region_options.length := ⟨0, by decide⟩

/-- A scaler artifact that passes every row through unchanged. -/
def idSc : Scaler := fun v => .ok v

/-- A model artifact that predicts 9 for every row. -/
def m9 : Model := fun _ => .ok 9

/-- A scaler artifact whose deserialized state is broken: it raises a
non-`ValueError` exception on every call. -/
def boomSc : Scaler := fun _ => .error (.otherError "NotFittedError: this StandardScaler instance is not fitted yet")

/-- An uploaded table with two ordinary columns and two rows. -/
def dfW : DataFrame := ⟨["Region", "Temperature"], [[1, 25], [2, 30]]⟩

/-- An uploaded table that already carries a column named
`Predicted FWI` (holding the value 3). -/
def dfPF : DataFrame := ⟨["Region", "Predicted FWI"], [[1, 3]]⟩

lemma mapExcept_ok_length {α β : Type} (f : α → Except PyErr β) :
    ∀ (xs : List α) (ys : List β), mapExcept f xs = .ok ys → ys.length = xs.length := by
  intro xs
  induction xs with
  | nil =>
    intro ys h
    simp only [mapExcept] at h
    cases h
    rfl
  | cons a as ih =>
    intro ys h
    unfold mapExcept at h
    cases hfa : f a with
    | error e => rw [hfa] at h; cases h
    | ok b =>
      rw [hfa] at h
      cases hm : mapExcept f as with
      | error e => rw [hm] at h; cases h
      | ok bs =>
        rw [hm] at h
        cases h
        simp [ih bs hm]

/-- C1.  Pressing Predict builds the feature row in exactly the order
`[region, temp, RH, Ws, Rain, FFMC, DMC, DC, ISI]` before the scaler is
invoked; the spec's example inputs for region Bejaia hand the scaler
exactly the vector `[1, 25, 45, 10, 0, 85, 50, 200, 5]`. -/
theorem manual_vector_order :
    regionCode "Bejaia" = some 1 ∧
    input_data 1 25 45 10 0 85 50 200 5 = [1, 25, 45, 10, 0, 85, 50, 200, 5] ∧
    ∀ (scaler : Scaler) (model : Model),
      singlePredict scaler model "Bejaia" 25 45 10 0 85 50 200 5 =
        run_inference scaler model "Bejaia" 25 45 10 0 85 50 200 5
          [1, 25, 45, 10, 0, 85, 50, 200, 5] := by
  refine ⟨rfl, rfl, fun scaler model => ?_⟩
  have h1 : (((regionCode "Bejaia").getD 0 : ℕ) : ℚ) = 1 := by
    norm_num [regionCode, region_map]
  unfold singlePredict
  rw [h1]
  rfl

/-- C2.  The region mapping is an exact finite function: "Bejaia" maps
to 1, "Sidi-Bel Abbes" maps to 2, the selectbox offers exactly those
two names, and no other name/code pair is in the mapping. -/
theorem region_map_exact :
    regionCode "Bejaia" = some 1 ∧
    regionCode "Sidi-Bel Abbes" = some 2 ∧
    region_options = ["Bejaia", "Sidi-Bel Abbes"] ∧
    ∀ (name : String) (code : ℕ), regionCode name = some code →
      (name = "Bejaia" ∧ code = 1) ∨ (name = "Sidi-Bel Abbes" ∧ code = 2) := by
  refine ⟨rfl, rfl, rfl, fun name code h => ?_⟩
  simp only [regionCode, region_map, List.lookup] at h
  rcases eq_or_ne name "Bejaia" with rfl | h1
  · simp only [beq_self_eq_true] at h
    exact Or.inl ⟨rfl, by simpa using h.symm⟩
  · rcases eq_or_ne name "Sidi-Bel Abbes" with rfl | h2
    · simp only [beq_self_eq_true] at h
      simp only [show (("Sidi-Bel Abbes" : String) == "Bejaia") = false by decide] at h
      exact Or.inr ⟨rfl, by simpa using h.symm⟩
    · rw [beq_eq_false_iff_ne.mpr h1, beq_eq_false_iff_ne.mpr h2] at h
      cases h

/-- C2 witness: instantiating the exactness clause at name "Bejaia" and
code 1. -/
theorem region_map_exact_app :
    ("Bejaia" = "Bejaia" ∧ (1 : ℕ) = 1) ∨ ("Bejaia" = "Sidi-Bel Abbes" ∧ (1 : ℕ) = 2) :=
  region_map_exact.2.2.2 "Bejaia" 1 (by decide)

/-- C5.  The single-record path is deterministic: for a fixed scaler and
model, two script runs with identical form inputs render the identical
single-prediction section (same rounded, displayed value and the same
success/error outcome), whatever the runs' random streams are. -/
theorem single_path_deterministic :
    ∀ (scaler : Scaler) (model : Model) (i : Fin region_options.length)
      (temp RH Ws Rain FFMC DMC DC ISI : ℚ) (pressed : Bool)
      (upload : Option (Except PyErr DataFrame)) (rand1 rand2 : ℕ → ℚ),
      (scriptRun scaler model i temp RH Ws Rain FFMC DMC DC ISI pressed upload rand1).map
          RenderOutput.single =
        (scriptRun scaler model i temp RH Ws Rain FFMC DMC DC ISI pressed upload rand2).map
          RenderOutput.single := by
  intro scaler model i temp RH Ws Rain FFMC DMC DC ISI pressed upload rand1 rand2
  cases pressed with
  | false => rfl
  | true =>
    cases hsp : singlePredict scaler model (region_options.get i) temp RH Ws Rain FFMC DMC DC ISI with
    | success d g r => simp only [List.get_eq_getElem] at hsp; simp [scriptRun, hsp, Except.map]
    | inputMismatch m hint => simp only [List.get_eq_getElem] at hsp; simp [scriptRun, hsp, Except.map]
    | uncaught e => simp only [List.get_eq_getElem] at hsp; simp [scriptRun, hsp, Except.map]

/-- C6.  When the scaler rejects the feature row's shape with a
`ValueError`, the Predict handler catches it: the run renders the
input-mismatch message plus the feature-order hint, terminates
gracefully (no exception escapes) and still renders the rest of the
page, leaving the process ready for the next interaction. -/
theorem value_error_caught_gracefully :
    ∀ (scaler : Scaler) (model : Model) (i : Fin region_options.length)
      (temp RH Ws Rain FFMC DMC DC ISI : ℚ)
      (upload : Option (Except PyErr DataFrame)) (rand : ℕ → ℚ) (m : String),
      scaler (input_data (((regionCode (region_options.get i)).getD 0 : ℕ) : ℚ)
          temp RH Ws Rain FFMC DMC DC ISI) = .error (.valueError m) →
      scriptRun scaler model i temp RH Ws Rain FFMC DMC DC ISI true upload rand =
        .ok ⟨some (.inputMismatch ("Input mismatch: " ++ m) hint_text),
             upload.map (batchRun scaler model), history_points rand⟩ := by
  intro scaler model i temp RH Ws Rain FFMC DMC DC ISI upload rand m h
  have hsp : singlePredict scaler model (region_options.get i) temp RH Ws Rain FFMC DMC DC ISI =
      .inputMismatch ("Input mismatch: " ++ m) hint_text := by
    unfold singlePredict run_inference
    rw [h]
  simp only [List.get_eq_getElem] at hsp
  simp [scriptRun, hsp]

/-- C6 witness: with a scaler fitted on 8 features, the 9-value row of
the spec's example inputs is rejected and the run ends gracefully with
the mismatch message and hint. -/
theorem value_error_caught_gracefully_inst :
    scriptRun scaler8 model0 regionIdx0 25 45 10 0 85 50 200 5 true none (fun _ => 0) =
      .ok ⟨some (.inputMismatch
              ("Input mismatch: " ++ "X has 9 features, but StandardScaler is expecting 8 features as input.")
              hint_text),
           Option.map (batchRun scaler8 model0) none, history_points (fun _ => 0)⟩ :=
  value_error_caught_gracefully scaler8 model0 regionIdx0 25 45 10 0 85 50 200 5 none
    (fun _ => 0) "X has 9 features, but StandardScaler is expecting 8 features as input." rfl

/-- C7.  Every exception in the batch section — raised while parsing the
upload, while scaling, or while predicting — is caught and converted to
the single error message; the failure outcome carries no predicted
column and no CSV, and no partial rows are produced. -/
theorem batch_errors_all_caught :
    ∀ (scaler : Scaler) (model : Model),
      (∀ (e : PyErr),
        batchRun scaler model (.error e) = .failure ("Error processing file: " ++ e.msg)) ∧
      (∀ (df : DataFrame) (e : PyErr), mapExcept scaler df.rows = .error e →
        batchRun scaler model (.ok df) = .failure ("Error processing file: " ++ e.msg)) ∧
      (∀ (df : DataFrame) (scaled : List (List ℚ)) (e : PyErr),
        mapExcept scaler df.rows = .ok scaled → mapExcept model scaled = .error e →
        batchRun scaler model (.ok df) = .failure ("Error processing file: " ++ e.msg)) := by
  intro scaler model
  refine ⟨fun e => rfl, fun df e h => ?_, fun df scaled e h1 h2 => ?_⟩
  · simp [batchRun, h]
  · simp [batchRun, h1, h2]

/-- C7 witness: a two-column upload fed to a scaler expecting nine
features fails inside `transform` and yields only the error message. -/
theorem batch_errors_all_caught_inst :
    batchRun (fun v => if v.length = 9 then .ok v
        else .error (.valueError "X has 2 features, but StandardScaler is expecting 9 features as input."))
      m9 (.ok dfW) =
      .failure ("Error processing file: " ++
        (PyErr.valueError "X has 2 features, but StandardScaler is expecting 9 features as input.").msg) :=
  ((batch_errors_all_caught (fun v => if v.length = 9 then .ok v
        else .error (.valueError "X has 2 features, but StandardScaler is expecting 9 features as input."))
      m9).2.1) dfW
    (.valueError "X has 2 features, but StandardScaler is expecting 9 features as input.") rfl

/-- A model artifact that raises a non-`ValueError` exception on every
call. -/
def boomModel : Model := fun _ =>
  .error (.otherError "TypeError: float() argument must be a string or a real number")

/-- C9.  The single-record handler's exception net is narrower than the
batch handler's: a non-`ValueError` raised during a Predict click —
whether by `scaler.transform` or, after a successful scaling, by
`model.predict` — escapes the handler and aborts the script run, while
the batch handler converts an exception of any type, at any stage, into
its inline error message. -/
theorem single_narrower_than_batch :
    (∀ (scaler : Scaler) (model : Model) (i : Fin region_options.length)
        (temp RH Ws Rain FFMC DMC DC ISI : ℚ)
        (upload : Option (Except PyErr DataFrame)) (rand : ℕ → ℚ) (m : String),
        scaler (input_data (((regionCode (region_options.get i)).getD 0 : ℕ) : ℚ)
            temp RH Ws Rain FFMC DMC DC ISI) = .error (.otherError m) →
        scriptRun scaler model i temp RH Ws Rain FFMC DMC DC ISI true upload rand =
          .error (.otherError m)) ∧
    (∀ (scaler : Scaler) (model : Model) (i : Fin region_options.length)
        (temp RH Ws Rain FFMC DMC DC ISI : ℚ)
        (upload : Option (Except PyErr DataFrame)) (rand : ℕ → ℚ)
        (scaled : List ℚ) (m : String),
        scaler (input_data (((regionCode (region_options.get i)).getD 0 : ℕ) : ℚ)
            temp RH Ws Rain FFMC DMC DC ISI) = .ok scaled →
        model scaled = .error (.otherError m) →
        scriptRun scaler model i temp RH Ws Rain FFMC DMC DC ISI true upload rand =
          .error (.otherError m)) ∧
    (∀ (scaler : Scaler) (model : Model) (e : PyErr),
        batchRun scaler model (.error e) = .failure ("Error processing file: " ++ e.msg)) ∧
    (∀ (scaler : Scaler) (model : Model) (df : DataFrame) (m : String),
        mapExcept scaler df.rows = .error (.otherError m) →
        batchRun scaler model (.ok df) = .failure ("Error processing file: " ++ m)) := by
  refine ⟨fun scaler model i temp RH Ws Rain FFMC DMC DC ISI upload rand m h => ?_,
          fun scaler model i temp RH Ws Rain FFMC DMC DC ISI upload rand scaled m h1 h2 => ?_,
          fun scaler model e => rfl,
          fun scaler model df m h => by simp [batchRun, h, PyErr.msg]⟩
  · have hsp : singlePredict scaler model (region_options.get i) temp RH Ws Rain FFMC DMC DC ISI =
        .uncaught (.otherError m) := by
      unfold singlePredict run_inference
      rw [h]
    simp only [List.get_eq_getElem] at hsp
    simp [scriptRun, hsp]
  · have hsp : singlePredict scaler model (region_options.get i) temp RH Ws Rain FFMC DMC DC ISI =
        .uncaught (.otherError m) := by
      unfold singlePredict run_inference
      simp only [h1, h2]
    simp only [List.get_eq_getElem] at hsp
    simp [scriptRun, hsp]

/-- C9 witness: a scaler raising a `NotFittedError` aborts the Predict
run uncaught, and so does a model raising a `TypeError` after the scaler
succeeded — neither is a `ValueError`. -/
theorem single_narrower_than_batch_inst :
    (scriptRun boomSc model0 regionIdx0 25 45 10 0 85 50 200 5 true none (fun _ => 0) =
      .error (.otherError "NotFittedError: this StandardScaler instance is not fitted yet")) ∧
    (scriptRun idSc boomModel regionIdx0 25 45 10 0 85 50 200 5 true none (fun _ => 0) =
      .error (.otherError "TypeError: float() argument must be a string or a real number")) :=
  ⟨single_narrower_than_batch.1 boomSc model0 regionIdx0 25 45 10 0 85 50 200 5 none
      (fun _ => 0) "NotFittedError: this StandardScaler instance is not fitted yet" rfl,
   single_narrower_than_batch.2.1 idSc boomModel regionIdx0 25 45 10 0 85 50 200 5 none
      (fun _ => 0)
      (input_data (((regionCode (region_options.get regionIdx0)).getD 0 : ℕ) : ℚ)
        25 45 10 0 85 50 200 5)
      "TypeError: float() argument must be a string or a real number" rfl rfl⟩

lemma bandColor_cases (v : ℚ) :
    bandColor v =
      if 70 ≤ v ∧ v ≤ 100 then some "red"
      else if 30 ≤ v ∧ v ≤ 70 then some "yellow"
      else if 0 ≤ v ∧ v ≤ 30 then some "lightgreen"
      else none := by
  by_cases a : (0:ℚ) ≤ v <;> by_cases b : v ≤ 30 <;>
    by_cases c : (30:ℚ) ≤ v <;> by_cases d : v ≤ 70 <;>
    by_cases e2 : (70:ℚ) ≤ v <;> by_cases f : v ≤ 100 <;>
    simp [bandColor, gauge_steps, List.filter, GaugeStep.holds, a, b, c, d, e2, f]

/-- C3.  Band membership on the rendered gauge follows half-open
intervals — low exactly on `[0, 30)`, moderate exactly on `[30, 70)`,
high exactly on `[70, 100]` (at a shared boundary the later-drawn step
shows); in particular 20 is low, 50 is moderate and 90 is high, and the
axis range is the constant 0-100. -/
theorem gauge_band_semantics :
    (∀ v : ℚ,
      (bandColor v = some "lightgreen" ↔ 0 ≤ v ∧ v < 30) ∧
      (bandColor v = some "yellow" ↔ 30 ≤ v ∧ v < 70) ∧
      (bandColor v = some "red" ↔ 70 ≤ v ∧ v ≤ 100)) ∧
    bandColor 20 = some "lightgreen" ∧
    bandColor 50 = some "yellow" ∧
    bandColor 90 = some "red" ∧
    gauge_axis = (0, 100) := by
  refine ⟨fun v => ⟨?_, ?_, ?_⟩, by decide, by decide, by decide, rfl⟩
  · rw [bandColor_cases v]
    constructor
    · intro h
      split_ifs at h with h1 h2 h3
      · exact absurd (Option.some.inj h) (by decide)
      · exact absurd (Option.some.inj h) (by decide)
      · refine ⟨h3.1, ?_⟩
        rcases not_and_or.mp h2 with hc | hc
        · linarith [not_le.mp hc]
        · linarith [not_le.mp hc, h3.2]
    · rintro ⟨hl, hr⟩
      rw [if_neg (by intro hc; linarith [hc.1]), if_neg (by intro hc; linarith [hc.1]),
          if_pos ⟨hl, by linarith⟩]
  · rw [bandColor_cases v]
    constructor
    · intro h
      split_ifs at h with h1 h2 h3
      · exact absurd (Option.some.inj h) (by decide)
      · refine ⟨h2.1, ?_⟩
        rcases not_and_or.mp h1 with hc | hc
        · linarith [not_le.mp hc]
        · linarith [not_le.mp hc, h2.2]
      · exact absurd (Option.some.inj h) (by decide)
    · rintro ⟨hl, hr⟩
      rw [if_neg (by intro hc; linarith [hc.1]), if_pos ⟨hl, by linarith⟩]
  · rw [bandColor_cases v]
    constructor
    · intro h
      split_ifs at h with h1 h2 h3
      · exact h1
      · exact absurd (Option.some.inj h) (by decide)
      · exact absurd (Option.some.inj h) (by decide)
    · intro h1
      rw [if_pos h1]

/-- The table the batch section produces for `dfPF`: the pre-existing
`Predicted FWI` column's value 3 has been replaced by the prediction 9
and no column was appended. -/
def outPF : DataFrame := ⟨["Region", "Predicted FWI"], [[1, 9]]⟩

/-- C4 counterexample: on an upload that already has a `Predicted FWI`
column, batch inference succeeds but the output has no appended column
(same header) and the original value 3 is gone — the claim's
preserve-everything-and-append guarantee fails at this input. -/
theorem batch_overwrite_cex :
    batchRun idSc m9 (.ok dfPF) = .success dfPF.head outPF (toCsv outPF) ∧
    dfPF.rows = [[1, 3]] ∧
    outPF.header = dfPF.header ∧
    outPF.rows = [[1, 9]] ∧
    ¬ outPF.header = dfPF.header ++ ["Predicted FWI"] ∧
    ¬ (3 : ℚ) ∈ outPF.rows.flatten := by
  refine ⟨rfl, rfl, rfl, rfl, by decide, by decide⟩

/-- C4 (amended): for every upload WITHOUT a pre-existing column named
`Predicted FWI` on which batch inference succeeds, the output has the
same number of rows, keeps every original column, value and ordering
unchanged, differs only by the one appended prediction column, and the
downloadable CSV is exactly the augmented table's CSV. -/
theorem batch_appends_preserving :
    ∀ (scaler : Scaler) (model : Model) (df preview out : DataFrame) (csv : String),
      "Predicted FWI" ∉ df.header →
      batchRun scaler model (.ok df) = .success preview out csv →
      preview = df.head ∧
      out.header = df.header ++ ["Predicted FWI"] ∧
      (∃ preds : List ℚ, preds.length = df.rows.length ∧
        out.rows = df.rows.zipWith (fun r v => r ++ [v]) preds) ∧
      out.rows.length = df.rows.length ∧
      csv = toCsv out := by
  intro scaler model df preview out csv hnot h
  cases hs : mapExcept scaler df.rows with
  | error e =>
    exfalso
    have hb : batchRun scaler model (.ok df) = .failure ("Error processing file: " ++ e.msg) := by
      simp [batchRun, hs]
    rw [hb] at h
    cases h
  | ok scaled =>
    cases hp : mapExcept model scaled with
    | error e =>
      exfalso
      have hb : batchRun scaler model (.ok df) = .failure ("Error processing file: " ++ e.msg) := by
        simp [batchRun, hs, hp]
      rw [hb] at h
      cases h
    | ok preds =>
      have hb : batchRun scaler model (.ok df) =
          .success df.head (setCol df "Predicted FWI" preds)
            (toCsv (setCol df "Predicted FWI" preds)) := by
        simp [batchRun, hs, hp]
      rw [hb] at h
      injection h with h1 h2 h3
      subst h1
      subst h2
      subst h3
      have hlen : preds.length = df.rows.length := by
        have l1 := mapExcept_ok_length scaler df.rows scaled hs
        have l2 := mapExcept_ok_length model scaled preds hp
        omega
      have hset : setCol df "Predicted FWI" preds =
          ⟨df.header ++ ["Predicted FWI"], df.rows.zipWith (fun r v => r ++ [v]) preds⟩ := by
        simp [setCol, hnot]
      refine ⟨rfl, ?_, ⟨preds, hlen, ?_⟩, ?_, rfl⟩
      · rw [hset]
      · rw [hset]
      · rw [hset]
        simp [List.length_zipWith, hlen]

/-- The augmented table for the C4 witness upload `dfW`. -/
def outW : DataFrame := ⟨["Region", "Temperature", "Predicted FWI"], [[1, 25, 9], [2, 30, 9]]⟩

/-- C4 witness: a two-column, two-row upload gains exactly one appended
prediction column, all original data intact. -/
theorem batch_appends_preserving_inst :
    DataFrame.head dfW = DataFrame.head dfW ∧
    outW.header = dfW.header ++ ["Predicted FWI"] ∧
    (∃ preds : List ℚ, preds.length = dfW.rows.length ∧
      outW.rows = dfW.rows.zipWith (fun r v => r ++ [v]) preds) ∧
    outW.rows.length = dfW.rows.length ∧
    toCsv outW = toCsv outW :=
  batch_appends_preserving idSc m9 dfW dfW.head outW (toCsv outW) (by decide) rfl

/-- C10.  The batch prediction column is written by key assignment under
the fixed name `Predicted FWI`; when the upload already has a column of
that name, the header gains no new column and that column's values are
overwritten with the predictions. -/
theorem predicted_col_overwritten :
    ∀ (scaler : Scaler) (model : Model) (df preview out : DataFrame) (csv : String),
      "Predicted FWI" ∈ df.header →
      batchRun scaler model (.ok df) = .success preview out csv →
      out.header = df.header ∧
      ∃ preds : List ℚ, preds.length = df.rows.length ∧
        out.rows = df.rows.zipWith
          (fun r v => r.set (df.header.indexOf "Predicted FWI") v) preds := by
  intro scaler model df preview out csv hmem h
  cases hs : mapExcept scaler df.rows with
  | error e =>
    exfalso
    have hb : batchRun scaler model (.ok df) = .failure ("Error processing file: " ++ e.msg) := by
      simp [batchRun, hs]
    rw [hb] at h
    cases h
  | ok scaled =>
    cases hp : mapExcept model scaled with
    | error e =>
      exfalso
      have hb : batchRun scaler model (.ok df) = .failure ("Error processing file: " ++ e.msg) := by
        simp [batchRun, hs, hp]
      rw [hb] at h
      cases h
    | ok preds =>
      have hb : batchRun scaler model (.ok df) =
          .success df.head (setCol df "Predicted FWI" preds)
            (toCsv (setCol df "Predicted FWI" preds)) := by
        simp [batchRun, hs, hp]
      rw [hb] at h
      injection h with h1 h2 h3
      subst h1
      subst h2
      subst h3
      have hlen : preds.length = df.rows.length := by
        have l1 := mapExcept_ok_length scaler df.rows scaled hs
        have l2 := mapExcept_ok_length model scaled preds hp
        omega
      have hset : setCol df "Predicted FWI" preds =
          ⟨df.header, df.rows.zipWith
            (fun r v => r.set (df.header.indexOf "Predicted FWI") v) preds⟩ := by
        simp [setCol, hmem]
      exact ⟨by rw [hset], preds, hlen, by rw [hset]⟩

lemma occursIn_appendL (pat s t : String) (h : occursIn pat s) : occursIn pat (s ++ t) := by
  obtain ⟨l, r, hh⟩ := h
  exact ⟨l, r ++ t.data, by rw [String.data_append, ← hh]; simp⟩

lemma occursIn_suffix (pat a : String) : occursIn pat (a ++ pat) :=
  ⟨a.data, [], by simp [String.data_append]⟩

lemma occursIn_join (p q w : String) : occursIn (p ++ q) (w ++ p ++ q) :=
  ⟨w.data, [], by simp [String.data_append]⟩

lemma occursIn_join3 (p q r w : String) : occursIn (p ++ q ++ r) (w ++ p ++ q ++ r) :=
  ⟨w.data, [], by simp [String.data_append]⟩

/-- C10 witness: the upload `dfPF` already has a `Predicted FWI` column;
the output keeps the same header and overwrites that column. -/
theorem predicted_col_overwritten_inst :
    outPF.header = dfPF.header ∧
    ∃ preds : List ℚ, preds.length = dfPF.rows.length ∧
      outPF.rows = dfPF.rows.zipWith
        (fun r v => r.set (dfPF.header.indexOf "Predicted FWI") v) preds :=
  predicted_col_overwritten idSc m9 dfPF dfPF.head outPF (toCsv outPF) (by decide) rfl

/-- C8.  A successful Predict click for region Bejaia displays the
prediction rounded to two decimals, and the downloadable report
literally contains `Region: Bejaia`, a line `Predicted FWI: ` followed
by the two-decimal prediction, and every raw input field. -/
theorem report_contents :
    ∀ (scaler : Scaler) (model : Model) (temp RH Ws Rain FFMC DMC DC ISI : ℚ)
      (scaled : List ℚ) (pred : ℚ),
      scaler (input_data 1 temp RH Ws Rain FFMC DMC DC ISI) = .ok scaled →
      model scaled = .ok pred →
      singlePredict scaler model "Bejaia" temp RH Ws Rain FFMC DMC DC ISI =
        .success ("Estimated FWI: **" ++ fmt2 pred ++ "**") pred
          (report_text "Bejaia" temp RH Ws Rain FFMC DMC DC ISI pred) ∧
      occursIn "Region: Bejaia" (report_text "Bejaia" temp RH Ws Rain FFMC DMC DC ISI pred) ∧
      occursIn (rsep ++ "Predicted FWI: " ++ fmt2 pred)
        (report_text "Bejaia" temp RH Ws Rain FFMC DMC DC ISI pred) ∧
      occursIn (pyStr temp) (report_text "Bejaia" temp RH Ws Rain FFMC DMC DC ISI pred) ∧
      occursIn (pyStr RH) (report_text "Bejaia" temp RH Ws Rain FFMC DMC DC ISI pred) ∧
      occursIn (pyStr Ws) (report_text "Bejaia" temp RH Ws Rain FFMC DMC DC ISI pred) ∧
      occursIn (pyStr Rain) (report_text "Bejaia" temp RH Ws Rain FFMC DMC DC ISI pred) ∧
      occursIn (pyStr FFMC) (report_text "Bejaia" temp RH Ws Rain FFMC DMC DC ISI pred) ∧
      occursIn (pyStr DMC) (report_text "Bejaia" temp RH Ws Rain FFMC DMC DC ISI pred) ∧
      occursIn (pyStr DC) (report_text "Bejaia" temp RH Ws Rain FFMC DMC DC ISI pred) ∧
      occursIn (pyStr ISI) (report_text "Bejaia" temp RH Ws Rain FFMC DMC DC ISI pred) := by
  intro scaler model temp RH Ws Rain FFMC DMC DC ISI scaled pred h1 h2
  have hcast : (((regionCode "Bejaia").getD 0 : ℕ) : ℚ) = 1 := by
    norm_num [regionCode, region_map]
  have hsp : singlePredict scaler model "Bejaia" temp RH Ws Rain FFMC DMC DC ISI =
      .success ("Estimated FWI: **" ++ fmt2 pred ++ "**") pred
        (report_text "Bejaia" temp RH Ws Rain FFMC DMC DC ISI pred) := by
    unfold singlePredict run_inference
    rw [hcast]
    simp only [h1, h2]
  refine ⟨hsp, ?_, ?_, ?_, ?_, ?_, ?_, ?_, ?_, ?_, ?_⟩
  · rw [show ("Region: Bejaia" : String) = "Region: " ++ "Bejaia" from rfl]
    unfold report_text
    iterate 32 apply occursIn_appendL
    exact occursIn_join _ _ _
  · unfold report_text
    apply occursIn_appendL
    exact occursIn_join3 _ _ _ _
  · unfold report_text
    iterate 29 apply occursIn_appendL
    exact occursIn_suffix _ _
  · unfold report_text
    iterate 25 apply occursIn_appendL
    exact occursIn_suffix _ _
  · unfold report_text
    iterate 21 apply occursIn_appendL
    exact occursIn_suffix _ _
  · unfold report_text
    iterate 17 apply occursIn_appendL
    exact occursIn_suffix _ _
  · unfold report_text
    iterate 13 apply occursIn_appendL
    exact occursIn_suffix _ _
  · unfold report_text
    iterate 10 apply occursIn_appendL
    exact occursIn_suffix _ _
  · unfold report_text
    iterate 7 apply occursIn_appendL
    exact occursIn_suffix _ _
  · unfold report_text
    iterate 4 apply occursIn_appendL
    exact occursIn_suffix _ _

/-- C8 witness: a pass-through scaler and a constant model predicting 9,
applied to the spec's example inputs. -/
theorem report_contents_inst :
    singlePredict idSc m9 "Bejaia" 25 45 10 0 85 50 200 5 =
      .success ("Estimated FWI: **" ++ fmt2 9 ++ "**") 9
        (report_text "Bejaia" 25 45 10 0 85 50 200 5 9) ∧
    occursIn "Region: Bejaia" (report_text "Bejaia" 25 45 10 0 85 50 200 5 9) ∧
    occursIn (rsep ++ "Predicted FWI: " ++ fmt2 9)
      (report_text "Bejaia" 25 45 10 0 85 50 200 5 9) ∧
    occursIn (pyStr 25) (report_text "Bejaia" 25 45 10 0 85 50 200 5 9) ∧
    occursIn (pyStr 45) (report_text "Bejaia" 25 45 10 0 85 50 200 5 9) ∧
    occursIn (pyStr 10) (report_text "Bejaia" 25 45 10 0 85 50 200 5 9) ∧
    occursIn (pyStr 0) (report_text "Bejaia" 25 45 10 0 85 50 200 5 9) ∧
    occursIn (pyStr 85) (report_text "Bejaia" 25 45 10 0 85 50 200 5 9) ∧
    occursIn (pyStr 50) (report_text "Bejaia" 25 45 10 0 85 50 200 5 9) ∧
    occursIn (pyStr 200) (report_text "Bejaia" 25 45 10 0 85 50 200 5 9) ∧
    occursIn (pyStr 5) (report_text "Bejaia" 25 45 10 0 85 50 200 5 9) :=
  report_contents idSc m9 25 45 10 0 85 50 200 5
    (input_data 1 25 45 10 0 85 50 200 5) 9 rfl rfl

end ForestFire
